import Mathlib

/-!
Verification of `src/client_questionnaire_tool.py` against its specification.

The module presents a questionnaire GUI and, on submission, serializes the
client's selections into a transcript string (`QuestionnaireFrame.submit`,
lines 206-229).  We embed the data model, the transcript formatter, the
session result handoff (`Questionnaire.get_client_response`, lines 257-274)
and the tool-boundary defaults (`ClientQuestionnaireTool._run`, lines
338-347) as pure Lean functions and prove the specification claims about
them.
-/

/-- A single question: its text and its ordered option list
(`QuestionSchema.question` / `QuestionSchema.options` after parsing). -/
structure Question where
  question : String
  options : List String
deriving DecidableEq, Repr

/-- One question's captured state at submission time: which option indices
are checked (one checkbox per option, read in declared order by `submit`)
and the free text of the `custom_option` text widget (`""` when the widget
is empty, matching `Text.get("1.0", "end-1c")`). -/
structure Selection where
  checked : List Nat
  custom_text : String
deriving DecidableEq, Repr

/-- The complete response: one `Selection` per question, in questionnaire
order, plus the closing comment widget's text (`""` when empty). -/
structure Response where
  answers : List Selection
  comment : String
deriving DecidableEq, Repr

/-- The questionnaire handed to `Questionnaire.__init__`. -/
structure Questionnaire where
  title : String
  author : String
  introduction : String
  questions : List Question
deriving DecidableEq, Repr

/-- The inner loop of `submit` over a question's `option_frames`: the frame
at position `i` contributes the line `"  * " ++ option` exactly when its
checkbox is selected, i.e. when `i` is in the checked set.  `n` is the index
of the first remaining option. -/
def bulletLinesFrom (checked : List Nat) : Nat → List String → List String
  | _, [] => []
  | n, o :: rest =>
      (if n ∈ checked then ["  * " ++ o] else []) ++ bulletLinesFrom checked (n + 1) rest

/-- All `"  * "` lines a question contributes, options scanned from index 0
in declared order (source lines 214-218). -/
def bulletLines (options : List String) (checked : List Nat) : List String :=
  bulletLinesFrom checked 0 options

/-- Source lines 220-222: `if custom_option:` — the `"  + "` line is
emitted exactly when the widget text is a non-empty string; the text is
included verbatim, with no trimming. -/
def customLines (custom_text : String) : List String :=
  if custom_text = "" then [] else ["  + " ++ custom_text]

/-- One question's contribution to `client_response_lines` (source lines
210-222): the `"\n{question}"` header element, then the checked-option
lines, then the optional custom-text line. -/
def questionLines (q : Question) (sel : Selection) : List String :=
  ["\n" ++ q.question] ++ bulletLines q.options sel.checked ++ customLines sel.custom_text

/-- Source lines 224-226: `if comment:` — the comment block element is
emitted exactly when the comment widget text is non-empty, verbatim. -/
def commentLines (comment : String) : List String :=
  if comment = "" then [] else ["\nClient comments:\n" ++ comment]

/-- The first element of `client_response_lines` (source line 208). -/
def titleLine (title : String) : String :=
  "Client answers to the questionnaire \"" ++ title ++ "\":"

/-- The full `client_response_lines` list built by `submit`: title element,
then each question's contribution in order (one selection per question
frame), then the optional comment element. -/
def transcriptChunks (Q : Questionnaire) (R : Response) : List String :=
  [titleLine Q.title]
    ++ (List.zip Q.questions R.answers).flatMap (fun p => questionLines p.1 p.2)
    ++ commentLines R.comment

/-- Source line 228: `"\n".join(client_response_lines)` — the transcript
returned to the session callback. -/
def formatTranscript (Q : Questionnaire) (R : Response) : String :=
  String.intercalate "\n" (transcriptChunks Q R)

/-- `Questionnaire.client_response` (source line 250): initialized to
`None`, modelled as `none`. -/
structure SessionState where
  client_response : Option String
deriving DecidableEq, Repr

/-- The state after `Questionnaire.__init__`: `client_response = None`. -/
def initialSession : SessionState :=
  ⟨none⟩

/-- `Questionnaire.on_client_response` (source lines 252-255): stores the
submitted transcript (and destroys the window). -/
def on_client_response (_st : SessionState) (response : String) : SessionState :=
  ⟨some response⟩

/-- `Questionnaire.get_client_response` (source lines 257-274): runs the
event loop, during which the submit callback fires once per submission
event, then returns whatever `client_response` holds — `none` (Python
`None`) when no submission ever happened. -/
def get_client_response (events : List String) : Option String :=
  (events.foldl on_client_response initialSession).client_response

/-- The keyword arguments reaching `ClientQuestionnaireTool._run`; a field
is `none` when the corresponding key is absent from `kwargs`. -/
structure ToolInput where
  title : Option String
  author : Option String
  introduction : Option String
  questions : List Question
deriving DecidableEq, Repr

/-- Source lines 340-345: `kwargs.get("title", "No title")` etc. — the
questionnaire `_run` constructs after substituting defaults for missing
fields. -/
def toolQuestionnaire (inp : ToolInput) : Questionnaire :=
  { title := inp.title.getD "No title",
    author := inp.author.getD "No author",
    introduction := inp.introduction.getD "No introduction",
    questions := inp.questions }

/-- `ClientQuestionnaireTool._run` (source lines 338-347): builds the
questionnaire with defaults and returns `get_client_response`'s result
unchanged.  `submission = some R` models the human submitting response `R`
(the submit callback delivers the formatted transcript); `none` models the
window being closed without submitting, in which case no event fires. -/
def toolRun (inp : ToolInput) (submission : Option Response) : Option String :=
  match submission with
  | some R => get_client_response [formatTranscript (toolQuestionnaire inp) R]
  | none => get_client_response []

/-- A raw question record as seen by `QuestionSchema` and by
`QuestionFrame.create_widgets`; `options = none` models a record lacking
the `options` entry. -/
structure QuestionRecord where
  question : String
  options : Option (List String)
deriving DecidableEq, Repr

/-- `QuestionSchema` (source lines 277-284): `options` has
`default_factory=list`, so a missing entry parses to the empty list. -/
def QuestionSchema.parse (r : QuestionRecord) : Question :=
  ⟨r.question, r.options.getD []⟩

/-- `QuestionFrame.create_widgets` (source line 142):
`question_data.get("options", [])`. -/
def frameOptions (r : QuestionRecord) : List String :=
  r.options.getD []

/-- Structural validity of a response for a questionnaire: one selection
per question, and every checked index a valid position in that question's
option list. -/
def structurallyValid (Q : Questionnaire) (R : Response) : Prop :=
  R.answers.length = Q.questions.length ∧
    ∀ p ∈ List.zip Q.questions R.answers, ∀ i ∈ p.2.checked, i < p.1.options.length

/-! ### Helper lemmas -/

/-- `String.join` distributes over `cons`. -/
theorem String.join_cons_eq (a : String) (l : List String) :
    String.join (a :: l) = a ++ String.join l := by
  have key : ∀ (l : List String) (x : String),
      l.foldl (fun r s => r ++ s) x = x ++ l.foldl (fun r s => r ++ s) "" := by
    intro l
    induction l with
    | nil => intro x; simp [List.foldl]
    | cons b t ih =>
        intro x
        simp only [List.foldl]
        rw [ih (x ++ b), ih ("" ++ b), String.empty_append, String.append_assoc]
  simp only [String.join, List.foldl]
  rw [key l ("" ++ a), String.empty_append]

/-- The accumulator form of `String.intercalate`. -/
theorem String.intercalate_go_eq (s : String) (l : List String) :
    ∀ acc : String,
      String.intercalate.go acc s l = acc ++ String.join (l.map (fun x => s ++ x)) := by
  induction l with
  | nil => intro acc; simp [String.intercalate.go, String.join]
  | cons a t ih =>
      intro acc
      simp only [String.intercalate.go, List.map]
      rw [ih, String.join_cons_eq]
      simp [String.append_assoc]

/-- `String.intercalate` on a non-empty list: head, then each further
element preceded by the separator. -/
theorem String.intercalate_cons_eq (s a : String) (l : List String) :
    String.intercalate s (a :: l) = a ++ String.join (l.map (fun x => s ++ x)) := by
  simp only [String.intercalate]
  exact String.intercalate_go_eq s l a

/-- The bullet-line loop is the filter of the enumerated options by
membership of the index in the checked set. -/
theorem bulletLinesFrom_eq_filter (checked : List Nat) :
    ∀ (options : List String) (n : Nat),
      bulletLinesFrom checked n options =
        ((List.enumFrom n options).filter (fun p => p.1 ∈ checked)).map
          (fun p => "  * " ++ p.2) := by
  intro options
  induction options with
  | nil => intro n; simp [bulletLinesFrom]
  | cons o rest ih =>
      intro n
      simp only [bulletLinesFrom, List.enumFrom, List.filter]
      by_cases h : n ∈ checked
      · simp [h, ih]
      · simp [h, ih]

/-- The bullet-line loop depends on the checked set only through
membership. -/
theorem bulletLinesFrom_congr (c₁ c₂ : List Nat) (h : ∀ i, i ∈ c₁ ↔ i ∈ c₂) :
    ∀ (options : List String) (n : Nat),
      bulletLinesFrom c₁ n options = bulletLinesFrom c₂ n options := by
  intro options
  induction options with
  | nil => intro n; rfl
  | cons o rest ih =>
      intro n
      simp only [bulletLinesFrom]
      rw [ih]
      by_cases hn : n ∈ c₁
      · rw [if_pos hn, if_pos ((h n).mp hn)]
      · rw [if_neg hn, if_neg (fun hc => hn ((h n).mpr hc))]

/-- An empty checked set contributes no bullet lines. -/
theorem bulletLinesFrom_nil_checked :
    ∀ (options : List String) (n : Nat), bulletLinesFrom [] n options = [] := by
  intro options
  induction options with
  | nil => intro n; rfl
  | cons o rest ih => intro n; simp [bulletLinesFrom, ih]

/-! ### Claims -/

/-- Claim C1: formatting the questionnaire titled "T" with the single
question "Color?" (options ["Red", "Blue"]) against the response whose only
selection checks index 1 with empty custom text, and whose comment is
"thanks", yields exactly the title line, a blank line, "Color?",
"  * Blue", a blank line, "Client comments:", and "thanks", joined by
newlines with no trailing newline. -/
theorem claim_C1_transcript :
    formatTranscript
        ⟨"T", "A", "I", [⟨"Color?", ["Red", "Blue"]⟩]⟩
        ⟨[⟨[1], ""⟩], "thanks"⟩
      = "Client answers to the questionnaire \"T\":\n\nColor?\n  * Blue\n\nClient comments:\nthanks" := by
  rfl

/-- Claim C5 (as stated): a questionnaire with no questions, formatted
against a response with no selections and empty comment, produces exactly
the title line with the title substituted. -/
theorem claim_C5_title_only (Q : Questionnaire) (R : Response)
    (hq : Q.questions = []) (ha : R.answers = []) (hc : R.comment = "") :
    formatTranscript Q R = "Client answers to the questionnaire \"" ++ Q.title ++ "\":" := by
  obtain ⟨t, a, i, qs⟩ := Q
  obtain ⟨ans, com⟩ := R
  simp only at hq ha hc
  subst hq; subst ha; subst hc
  rfl

/-- Witness for C5 at title "T". -/
theorem claim_C5_witness :
    formatTranscript ⟨"T", "A", "I", []⟩ ⟨[], ""⟩ =
      "Client answers to the questionnaire \"T\":" :=
  claim_C5_title_only ⟨"T", "A", "I", []⟩ ⟨[], ""⟩ rfl rfl rfl

/-- When every selection is empty (nothing checked, no custom text), each
question contributes only its header element. -/
theorem zip_flatMap_empty_sel :
    ∀ (qs : List Question) (ans : List Selection),
      ans.length = qs.length →
      (∀ sel ∈ ans, sel.checked = [] ∧ sel.custom_text = "") →
      (List.zip qs ans).flatMap (fun p => questionLines p.1 p.2) =
        qs.map (fun q => "\n" ++ q.question) := by
  intro qs
  induction qs with
  | nil => intro ans _ _; simp
  | cons q qs ih =>
      intro ans hlen hsel
      cases ans with
      | nil => simp at hlen
      | cons a ans =>
          have ha := hsel a (by simp)
          have htail : ∀ sel ∈ ans, sel.checked = [] ∧ sel.custom_text = "" := by
            intro sel hs
            exact hsel sel (by simp [hs])
          have hlen' : ans.length = qs.length := by
            simpa using hlen
          simp only [List.zip_cons_cons, List.flatMap_cons, List.map_cons]
          rw [ih ans hlen' htail]
          simp [questionLines, ha.1, ha.2, bulletLines, bulletLinesFrom_nil_checked,
            customLines]

/-- Claim C4: if every selection has an empty checked set and empty custom
text and the comment is empty, the transcript is exactly the title line
followed, for each question in order, by a blank line and the question's
text — no bullet lines, no custom-text lines, no comments block. -/
theorem claim_C4_headers_only (Q : Questionnaire) (R : Response)
    (hlen : R.answers.length = Q.questions.length)
    (hsel : ∀ sel ∈ R.answers, sel.checked = [] ∧ sel.custom_text = "")
    (hc : R.comment = "") :
    formatTranscript Q R =
      titleLine Q.title ++ String.join (Q.questions.map (fun q => "\n\n" ++ q.question)) := by
  have hchunks : transcriptChunks Q R =
      titleLine Q.title :: Q.questions.map (fun q => "\n" ++ q.question) := by
    simp only [transcriptChunks, zip_flatMap_empty_sel Q.questions R.answers hlen hsel, hc]
    simp [commentLines]
  have hfun : (fun x : String => "\n" ++ x) ∘ (fun q : Question => "\n" ++ q.question)
      = fun q : Question => "\n\n" ++ q.question := by
    funext q
    show "\n" ++ ("\n" ++ q.question) = "\n\n" ++ q.question
    rw [← String.append_assoc]
    rfl
  rw [formatTranscript, hchunks, String.intercalate_cons_eq, List.map_map, hfun]

/-- Witness for C4: two questions, both unanswered. -/
theorem claim_C4_witness :
    formatTranscript ⟨"T", "A", "I", [⟨"Q1", ["O1"]⟩, ⟨"Q2", []⟩]⟩
        ⟨[⟨[], ""⟩, ⟨[], ""⟩], ""⟩ =
      titleLine "T" ++
        String.join ([⟨"Q1", ["O1"]⟩, (⟨"Q2", []⟩ : Question)].map
          (fun q => "\n\n" ++ q.question)) :=
  claim_C4_headers_only ⟨"T", "A", "I", [⟨"Q1", ["O1"]⟩, ⟨"Q2", []⟩]⟩
    ⟨[⟨[], ""⟩, ⟨[], ""⟩], ""⟩ rfl (by decide) rfl

/-- Counterexample for C2: the code does not trim.  A whitespace-only
custom text is truthy in Python, so `submit` emits the line `"  +  "`
(untrimmed), and the comment `" x "` is included verbatim — the output
differs from the trimmed output the claim prescribes. -/
theorem claim_C2_counterexample :
    formatTranscript ⟨"T", "A", "I", [⟨"Q1", []⟩]⟩ ⟨[⟨[], " "⟩], " x "⟩ =
        "Client answers to the questionnaire \"T\":\n\nQ1\n  +  \n\nClient comments:\n x "
      ∧ formatTranscript ⟨"T", "A", "I", [⟨"Q1", []⟩]⟩ ⟨[⟨[], " "⟩], " x "⟩ ≠
        "Client answers to the questionnaire \"T\":\n\nQ1\n\nClient comments:\nx" :=
  ⟨rfl, by decide⟩

/-- Claim C2 as amended: custom text and comment are included verbatim with
no trimming; a `"  + "` line is emitted exactly when the custom text is a
non-empty string (all-whitespace included), and the comments block exactly
when the comment is a non-empty string (all-whitespace included). -/
theorem claim_C2_verbatim (q : Question) (sel : Selection)
    (Q : Questionnaire) (R : Response) :
    (sel.custom_text ≠ "" → questionLines q sel =
        ["\n" ++ q.question] ++ bulletLines q.options sel.checked
          ++ ["  + " ++ sel.custom_text]) ∧
    (sel.custom_text = "" → questionLines q sel =
        ["\n" ++ q.question] ++ bulletLines q.options sel.checked) ∧
    (R.comment ≠ "" → transcriptChunks Q R =
        [titleLine Q.title]
          ++ (List.zip Q.questions R.answers).flatMap (fun p => questionLines p.1 p.2)
          ++ ["\nClient comments:\n" ++ R.comment]) ∧
    (R.comment = "" → transcriptChunks Q R =
        [titleLine Q.title]
          ++ (List.zip Q.questions R.answers).flatMap (fun p => questionLines p.1 p.2)) := by
  refine ⟨?_, ?_, ?_, ?_⟩
  · intro h; simp [questionLines, customLines, h]
  · intro h; simp [questionLines, customLines, h]
  · intro h; simp [transcriptChunks, commentLines, h]
  · intro h; simp [transcriptChunks, commentLines, h]

/-- Witness for the amended C2 at a whitespace-only custom text and
comment. -/
theorem claim_C2_verbatim_witness :
    ((⟨[0], " "⟩ : Selection).custom_text ≠ "" →
        questionLines ⟨"Q1", ["O1"]⟩ ⟨[0], " "⟩ =
          ["\n" ++ "Q1"] ++ bulletLines ["O1"] [0] ++ ["  + " ++ " "]) ∧
    ((⟨[0], " "⟩ : Selection).custom_text = "" →
        questionLines ⟨"Q1", ["O1"]⟩ ⟨[0], " "⟩ =
          ["\n" ++ "Q1"] ++ bulletLines ["O1"] [0]) ∧
    ((⟨[⟨[0], " "⟩], " c "⟩ : Response).comment ≠ "" →
        transcriptChunks ⟨"T", "A", "I", [⟨"Q1", ["O1"]⟩]⟩ ⟨[⟨[0], " "⟩], " c "⟩ =
          [titleLine "T"]
            ++ (List.zip [(⟨"Q1", ["O1"]⟩ : Question)] [(⟨[0], " "⟩ : Selection)]).flatMap
                (fun p => questionLines p.1 p.2)
            ++ ["\nClient comments:\n" ++ " c "]) ∧
    ((⟨[⟨[0], " "⟩], " c "⟩ : Response).comment = "" →
        transcriptChunks ⟨"T", "A", "I", [⟨"Q1", ["O1"]⟩]⟩ ⟨[⟨[0], " "⟩], " c "⟩ =
          [titleLine "T"]
            ++ (List.zip [(⟨"Q1", ["O1"]⟩ : Question)] [(⟨[0], " "⟩ : Selection)]).flatMap
                (fun p => questionLines p.1 p.2)) :=
  claim_C2_verbatim ⟨"Q1", ["O1"]⟩ ⟨[0], " "⟩ ⟨"T", "A", "I", [⟨"Q1", ["O1"]⟩]⟩
    ⟨[⟨[0], " "⟩], " c "⟩

/-- Counterexample for C3: closing the window without submitting leaves
`client_response` at its initial `None`; `_run` returns that sentinel to
the caller as-is.  No exception is raised and the result is not the empty
transcript `some ""` — it is the silent sentinel `none`. -/
theorem claim_C3_counterexample :
    toolRun ⟨some "T", some "A", some "I", []⟩ none = none ∧
      toolRun ⟨some "T", some "A", some "I", []⟩ none ≠ some "" :=
  ⟨rfl, by decide⟩

/-- Claim C3 as amended: on abandonment (no submission event), the session
result is the sentinel `none` (Python `None`), which `_run` passes back to
the caller unchanged — it never raises and never substitutes an empty
transcript. -/
theorem claim_C3_sentinel (inp : ToolInput) :
    toolRun inp none = none :=
  rfl

/-- Claim C6: a question's `"  * "` lines are exactly the option texts
whose indices are in the checked set, in declared option order (the filter
of the enumerated option list), and they depend on the checked set only
through membership — not on the order indices were added. -/
theorem claim_C6_checked_order (options : List String) (c₁ c₂ : List Nat)
    (h : ∀ i, i ∈ c₁ ↔ i ∈ c₂) :
    bulletLines options c₁ =
        ((options.enum.filter (fun p => p.1 ∈ c₁)).map (fun p => "  * " ++ p.2))
      ∧ bulletLines options c₁ = bulletLines options c₂ :=
  ⟨bulletLinesFrom_eq_filter c₁ options 0, bulletLinesFrom_congr c₁ c₂ h options 0⟩

/-- Witness for C6: checked sets `[1, 0]` and `[0, 1]` over two options. -/
theorem claim_C6_witness :
    bulletLines ["Red", "Blue"] [1, 0] =
        (((["Red", "Blue"] : List String).enum.filter (fun p => p.1 ∈ [1, 0])).map
          (fun p => "  * " ++ p.2))
      ∧ bulletLines ["Red", "Blue"] [1, 0] = bulletLines ["Red", "Blue"] [0, 1] :=
  claim_C6_checked_order ["Red", "Blue"] [1, 0] [0, 1]
    (by intro i; simp [List.mem_cons]; tauto)

/-- Claim C7: `_run` substitutes `"No title"` / `"No author"` /
`"No introduction"` for absent keyword arguments and passes present values
and the question list through unchanged. -/
theorem claim_C7_defaults (inp : ToolInput) (t a intr : String) :
    (inp.title = none → (toolQuestionnaire inp).title = "No title") ∧
    (inp.title = some t → (toolQuestionnaire inp).title = t) ∧
    (inp.author = none → (toolQuestionnaire inp).author = "No author") ∧
    (inp.author = some a → (toolQuestionnaire inp).author = a) ∧
    (inp.introduction = none → (toolQuestionnaire inp).introduction = "No introduction") ∧
    (inp.introduction = some intr → (toolQuestionnaire inp).introduction = intr) ∧
    (toolQuestionnaire inp).questions = inp.questions := by
  refine ⟨?_, ?_, ?_, ?_, ?_, ?_, rfl⟩ <;> intro h <;> simp [toolQuestionnaire, h]

/-- Witness for C7: absent title and introduction, present author. -/
theorem claim_C7_witness :
    ((⟨none, some "A", none, []⟩ : ToolInput).title = none →
        (toolQuestionnaire ⟨none, some "A", none, []⟩).title = "No title") ∧
    ((⟨none, some "A", none, []⟩ : ToolInput).title = some "X" →
        (toolQuestionnaire ⟨none, some "A", none, []⟩).title = "X") ∧
    ((⟨none, some "A", none, []⟩ : ToolInput).author = none →
        (toolQuestionnaire ⟨none, some "A", none, []⟩).author = "No author") ∧
    ((⟨none, some "A", none, []⟩ : ToolInput).author = some "A" →
        (toolQuestionnaire ⟨none, some "A", none, []⟩).author = "A") ∧
    ((⟨none, some "A", none, []⟩ : ToolInput).introduction = none →
        (toolQuestionnaire ⟨none, some "A", none, []⟩).introduction = "No introduction") ∧
    ((⟨none, some "A", none, []⟩ : ToolInput).introduction = some "Y" →
        (toolQuestionnaire ⟨none, some "A", none, []⟩).introduction = "Y") ∧
    (toolQuestionnaire ⟨none, some "A", none, []⟩).questions = [] :=
  claim_C7_defaults ⟨none, some "A", none, []⟩ "X" "A" "Y"

/-- Claim C8: the formatter is deterministic — equal questionnaire and
response inputs produce equal (byte-identical) transcript strings; the
embedding is a pure function, so formatting has no side effects. -/
theorem claim_C8_deterministic (Q₁ Q₂ : Questionnaire) (R₁ R₂ : Response)
    (hQ : Q₁ = Q₂) (hR : R₁ = R₂) :
    formatTranscript Q₁ R₁ = formatTranscript Q₂ R₂ := by
  rw [hQ, hR]

/-- Witness for C8 at a concrete questionnaire and response. -/
theorem claim_C8_witness :
    formatTranscript ⟨"T", "A", "I", [⟨"Q1", ["O1"]⟩]⟩ ⟨[⟨[0], "c"⟩], "done"⟩ =
      formatTranscript ⟨"T", "A", "I", [⟨"Q1", ["O1"]⟩]⟩ ⟨[⟨[0], "c"⟩], "done"⟩ :=
  claim_C8_deterministic ⟨"T", "A", "I", [⟨"Q1", ["O1"]⟩]⟩
    ⟨"T", "A", "I", [⟨"Q1", ["O1"]⟩]⟩ ⟨[⟨[0], "c"⟩], "done"⟩ ⟨[⟨[0], "c"⟩], "done"⟩
    rfl rfl

instance (Q : Questionnaire) (R : Response) : Decidable (structurallyValid Q R) := by
  unfold structurallyValid
  infer_instance

/-- Claim C9: the formatter is total on structurally valid inputs — it
always produces a string; its embedding is a total function with no error
branch (the source loop iterates widgets in order and never indexes by a
checked index, so no failure path exists). -/
theorem claim_C9_total (Q : Questionnaire) (R : Response)
    (h : structurallyValid Q R) :
    ∃ s : String, formatTranscript Q R = s :=
  ⟨formatTranscript Q R, rfl⟩

/-- Witness for C9 at a structurally valid pair. -/
theorem claim_C9_witness :
    ∃ s : String,
      formatTranscript ⟨"T", "A", "I", [⟨"Color?", ["Red", "Blue"]⟩]⟩
        ⟨[⟨[1], ""⟩], "thanks"⟩ = s :=
  claim_C9_total ⟨"T", "A", "I", [⟨"Color?", ["Red", "Blue"]⟩]⟩
    ⟨[⟨[1], ""⟩], "thanks"⟩ (by decide)

/-- Claim C10: a question record lacking the `options` entry is parsed by
`QuestionSchema` with `options = []` (via `default_factory=list`), the
rendering path's `question_data.get("options", [])` yields `[]` as well,
and such a question's transcript contribution is exactly its header
element with no `"  * "` lines. -/
theorem claim_C10_missing_options (r : QuestionRecord) (sel : Selection)
    (h : r.options = none) (hct : sel.custom_text = "") :
    (QuestionSchema.parse r).options = [] ∧ frameOptions r = [] ∧
      questionLines (QuestionSchema.parse r) sel = ["\n" ++ r.question] := by
  refine ⟨?_, ?_, ?_⟩
  · simp [QuestionSchema.parse, h]
  · simp [frameOptions, h]
  · simp [questionLines, QuestionSchema.parse, h, hct, customLines, bulletLines,
      bulletLinesFrom]

/-- Witness for C10 at a concrete record with no options entry. -/
theorem claim_C10_witness :
    (QuestionSchema.parse ⟨"Q?", none⟩).options = [] ∧ frameOptions ⟨"Q?", none⟩ = [] ∧
      questionLines (QuestionSchema.parse ⟨"Q?", none⟩) ⟨[0, 5], ""⟩ =
        ["\n" ++ "Q?"] :=
  claim_C10_missing_options ⟨"Q?", none⟩ ⟨[0, 5], ""⟩ rfl rfl
